import Mathlib

/-!
Verification of the revenue simulation and reverse-solving core of the
music-analyzer application (`src/app.py`).

The core functions are pure numeric functions.  Arithmetic on Python
floats is modelled over the exact rationals `ℚ` wherever the source only
uses field operations (`revenue_forecast_compound`,
`revenue_forecast_linear`, `reach_month`, `reverse_required_streams`,
`estimate_streams_from_artist`), and over the reals `ℝ` for
`required_growth_rate_to_reach`, whose closed form takes a real
`(months-1)`-th root.  Python `int` values are modelled as `ℤ` (or `ℕ`
for the always-positive month counter).
-/

/-- One row of the forecast data frame built by the projectors:
`{"Month": m, "Revenue": rev}`. -/
structure RevenuePoint where
  month : ℕ
  revenue : ℚ
  deriving DecidableEq, Repr

/-- Loop body of `revenue_forecast_compound`: `k` remaining iterations,
`m` the current month counter, `cs`/`cy` the current stream counts.
Each iteration emits `{"Month": m, "Revenue": cs*spotify_rate + cy*youtube_rate}`
and then performs `cs *= g; cy *= g`. -/
def revenue_forecast_compound_go (sr yr g : ℚ) : ℕ → ℚ → ℚ → ℕ → List RevenuePoint
  | _, _, _, 0 => []
  | m, cs, cy, k + 1 =>
      ⟨m, cs * sr + cy * yr⟩ :: revenue_forecast_compound_go sr yr g (m + 1) (cs * g) (cy * g) k

/-- `revenue_forecast_compound(spotify_streams, youtube_streams, spotify_rate,
youtube_rate, growth_rate_pct, months)` from `src/app.py`: starting from the
given stream counts it iterates `m = 1 .. months` (empty for `months ≤ 0`),
recording the revenue and multiplying both stream counts by
`g = 1 + growth_rate_pct/100` after each month. -/
def revenue_forecast_compound (spotify_streams youtube_streams spotify_rate youtube_rate growth_rate_pct : ℚ) (months : ℤ) : List RevenuePoint :=
  revenue_forecast_compound_go spotify_rate youtube_rate (1 + growth_rate_pct / 100) 1
    spotify_streams youtube_streams months.toNat

/-- Loop body of `revenue_forecast_linear`: each iteration emits the revenue
row and then performs `cs += linear_add_spotify; cy += linear_add_youtube`. -/
def revenue_forecast_linear_go (sr yr sa sy : ℚ) : ℕ → ℚ → ℚ → ℕ → List RevenuePoint
  | _, _, _, 0 => []
  | m, cs, cy, k + 1 =>
      ⟨m, cs * sr + cy * yr⟩ :: revenue_forecast_linear_go sr yr sa sy (m + 1) (cs + sa) (cy + sy) k

/-- `revenue_forecast_linear(spotify_streams, youtube_streams, spotify_rate,
youtube_rate, linear_add_spotify, linear_add_youtube, months)` from
`src/app.py`. -/
def revenue_forecast_linear (spotify_streams youtube_streams spotify_rate youtube_rate linear_add_spotify linear_add_youtube : ℚ) (months : ℤ) : List RevenuePoint :=
  revenue_forecast_linear_go spotify_rate youtube_rate linear_add_spotify linear_add_youtube 1
    spotify_streams youtube_streams months.toNat

/-- Loop of `reach_month`: `enumerate(df["Revenue"], start=1)` scanning for the
first revenue `≥ target`, returning its 1-based position. -/
def reach_month_go (target : ℚ) : ℕ → List ℚ → Option ℕ
  | _, [] => none
  | i, rev :: rest => if target ≤ rev then some i else reach_month_go target (i + 1) rest

/-- `reach_month(df, target_monthly_income)` from `src/app.py`: first 1-based
index of the revenue column whose value is `≥ target`, else `None`. -/
def reach_month (df : List RevenuePoint) (target_monthly_income : ℚ) : Option ℕ :=
  reach_month_go target_monthly_income 1 (df.map RevenuePoint.revenue)

def msgInvalidDuration : String := "Invalid duration."

def msgTargetZero : String := "Target is zero."

def msgRevenueZero : String := "Current revenue is zero."

def msgOneMonth : String := "Duration is 1 month."

/-- `required_growth_rate_to_reach(r0, target, months)` from `src/app.py`.
Python returns a pair `(rate_or_None, message_or_None)`; the checks happen in
source order with early returns, and the success formula is
`max(0.0, ((target/r0) ** (1.0/(months-1)) - 1.0) * 100.0)` (real power). -/
noncomputable def required_growth_rate_to_reach (r0 target : ℝ) (months : ℤ) : Option ℝ × Option String :=
  if months ≤ 0 then (none, some msgInvalidDuration)
  else if target ≤ 0 then (none, some msgTargetZero)
  else if r0 ≤ 0 then (none, some msgRevenueZero)
  else if target ≤ r0 then (some 0, none)
  else if months = 1 then (none, some msgOneMonth)
  else (some (max 0 (((target / r0) ^ ((1 : ℝ) / ((months : ℝ) - 1)) - 1) * 100)), none)

/-- Result dictionary of `reverse_required_streams`. -/
structure ReverseRequirement where
  spotify_ratio : ℚ
  youtube_ratio : ℚ
  weighted_rate : ℚ
  required_total_streams : ℚ
  required_spotify_streams : ℚ
  required_youtube_streams : ℚ
  deriving DecidableEq, Repr

/-- `reverse_required_streams(spotify_streams, youtube_streams, spotify_rate,
youtube_rate, target_monthly_income)` from `src/app.py`: splits the current
total streams into per-channel shares (50/50 when the total is 0), forms the
share-weighted per-stream rate, and returns `None` when that rate is `≤ 0`,
otherwise the required total and per-channel stream counts.  -/
def reverse_required_streams (spotify_streams youtube_streams spotify_rate youtube_rate target_monthly_income : ℚ) : Option ReverseRequirement :=
  let total_streams_now := spotify_streams + youtube_streams
  let ratios : ℚ × ℚ :=
    if 0 < total_streams_now then
      (spotify_streams / total_streams_now, youtube_streams / total_streams_now)
    else (1 / 2, 1 / 2)
  let weighted_rate := ratios.1 * spotify_rate + ratios.2 * youtube_rate
  if weighted_rate ≤ 0 then none
  else
    let required_total_streams := target_monthly_income / weighted_rate
    some
      { spotify_ratio := ratios.1
        youtube_ratio := ratios.2
        weighted_rate := weighted_rate
        required_total_streams := required_total_streams
        required_spotify_streams := required_total_streams * ratios.1
        required_youtube_streams := required_total_streams * ratios.2 }

/-- Python `int(...)` applied to a float value: truncation toward zero. -/
def pyTrunc (q : ℚ) : ℤ :=
  if q < 0 then ⌈q⌉ else ⌊q⌋

/-- `estimate_streams_from_artist(popularity, followers)` from `src/app.py`:
clamps the inputs, then
`spotify_streams = max(5000, int(followers * (0.08 + popularity/100 * 0.10)))`
and `youtube_streams = max(0, int(spotify_streams * (0.40 + popularity/100 * 0.40)))`.
Note the source truncates with `int(...)`, it does not round. -/
def estimate_streams_from_artist (popularity followers : ℤ) : ℤ × ℤ :=
  let followers := max 0 followers
  let popularity := max 0 (min 100 popularity)
  let base_ratio : ℚ := 8 / 100 + ((popularity : ℚ) / 100) * (10 / 100)
  let spotify_streams := max 5000 (pyTrunc ((followers : ℚ) * base_ratio))
  let yt_ratio : ℚ := 40 / 100 + ((popularity : ℚ) / 100) * (40 / 100)
  let youtube_streams := max 0 (pyTrunc ((spotify_streams : ℚ) * yt_ratio))
  (spotify_streams, youtube_streams)

/-- The per-month growth step of the compound policy, as the spec states it:
both stream counts are multiplied by `1 + pct/100`. -/
def compound_step (pct : ℚ) (s : ℚ × ℚ) : ℚ × ℚ :=
  ((1 + pct / 100) * s.1, (1 + pct / 100) * s.2)

/-- The per-month growth step of the linear policy, as the spec states it:
fixed per-channel amounts are added to the stream counts. -/
def linear_step (sa sy : ℚ) (s : ℚ × ℚ) : ℚ × ℚ :=
  (s.1 + sa, s.2 + sy)

lemma revenue_forecast_compound_go_length (sr yr g : ℚ) :
    ∀ (k m : ℕ) (cs cy : ℚ), (revenue_forecast_compound_go sr yr g m cs cy k).length = k := by
  intro k
  induction k with
  | zero => intro m cs cy; rfl
  | succ k ih => intro m cs cy; simp [revenue_forecast_compound_go, ih]

lemma revenue_forecast_linear_go_length (sr yr sa sy : ℚ) :
    ∀ (k m : ℕ) (cs cy : ℚ), (revenue_forecast_linear_go sr yr sa sy m cs cy k).length = k := by
  intro k
  induction k with
  | zero => intro m cs cy; rfl
  | succ k ih => intro m cs cy; simp [revenue_forecast_linear_go, ih]

lemma revenue_forecast_compound_go_get? (sr yr g : ℚ) :
    ∀ (k i m : ℕ) (cs cy : ℚ), i < k →
      (revenue_forecast_compound_go sr yr g m cs cy k).get? i
        = some ⟨m + i, cs * g ^ i * sr + cy * g ^ i * yr⟩ := by
  intro k
  induction k with
  | zero => intro i m cs cy h; exact absurd h (Nat.not_lt_zero i)
  | succ k ih =>
    intro i m cs cy h
    cases i with
    | zero => simp [revenue_forecast_compound_go]
    | succ i =>
      have h2 : i < k := by omega
      simp only [revenue_forecast_compound_go, List.get?_cons_succ]
      rw [ih i (m + 1) (cs * g) (cy * g) h2]
      simp only [Option.some.injEq, RevenuePoint.mk.injEq]
      exact ⟨by omega, by ring⟩

lemma revenue_forecast_linear_go_get? (sr yr sa sy : ℚ) :
    ∀ (k i m : ℕ) (cs cy : ℚ), i < k →
      (revenue_forecast_linear_go sr yr sa sy m cs cy k).get? i
        = some ⟨m + i, (cs + (i : ℚ) * sa) * sr + (cy + (i : ℚ) * sy) * yr⟩ := by
  intro k
  induction k with
  | zero => intro i m cs cy h; exact absurd h (Nat.not_lt_zero i)
  | succ k ih =>
    intro i m cs cy h
    cases i with
    | zero => simp [revenue_forecast_linear_go]
    | succ i =>
      have h2 : i < k := by omega
      simp only [revenue_forecast_linear_go, List.get?_cons_succ]
      rw [ih i (m + 1) (cs + sa) (cy + sy) h2]
      simp only [Option.some.injEq, RevenuePoint.mk.injEq]
      refine ⟨by omega, ?_⟩
      push_cast
      ring

lemma compound_step_iterate (pct ss ys : ℚ) :
    ∀ i : ℕ, (compound_step pct)^[i] (ss, ys)
      = (ss * (1 + pct / 100) ^ i, ys * (1 + pct / 100) ^ i) := by
  intro i
  induction i with
  | zero => simp
  | succ i ih =>
    rw [Function.iterate_succ_apply', ih]
    simp only [compound_step, Prod.mk.injEq]
    exact ⟨by ring, by ring⟩

lemma linear_step_iterate (sa sy ss ys : ℚ) :
    ∀ i : ℕ, (linear_step sa sy)^[i] (ss, ys)
      = (ss + (i : ℚ) * sa, ys + (i : ℚ) * sy) := by
  intro i
  induction i with
  | zero => simp
  | succ i ih =>
    rw [Function.iterate_succ_apply', ih]
    simp only [linear_step, Prod.mk.injEq]
    push_cast
    exact ⟨by ring, by ring⟩

/-- C1: for every initial stream state, rate model, growth policy and integer
month count, the projection is empty for `months ≤ 0` and otherwise has exactly
`months` points; the point at (1-based) month `i + 1` carries that month number
and the revenue of the stream state after `i` growth steps (compound:
multiplication of both counts by `1 + pct/100`; linear: addition of the fixed
per-channel amounts) dotted with the per-stream rates; the first point carries
the initial state's revenue with no pre-growth. -/
theorem C1_projection_points (ss ys sr yr pct sa sy : ℚ) (months : ℤ) :
    (months ≤ 0 → revenue_forecast_compound ss ys sr yr pct months = [] ∧
        revenue_forecast_linear ss ys sr yr sa sy months = []) ∧
    (revenue_forecast_compound ss ys sr yr pct months).length = months.toNat ∧
    (revenue_forecast_linear ss ys sr yr sa sy months).length = months.toNat ∧
    (∀ i : ℕ, i < months.toNat →
      (revenue_forecast_compound ss ys sr yr pct months).get? i
          = some ⟨i + 1, ((compound_step pct)^[i] (ss, ys)).1 * sr
              + ((compound_step pct)^[i] (ss, ys)).2 * yr⟩ ∧
      (revenue_forecast_linear ss ys sr yr sa sy months).get? i
          = some ⟨i + 1, ((linear_step sa sy)^[i] (ss, ys)).1 * sr
              + ((linear_step sa sy)^[i] (ss, ys)).2 * yr⟩) ∧
    (1 ≤ months →
      (revenue_forecast_compound ss ys sr yr pct months).get? 0 = some ⟨1, ss * sr + ys * yr⟩ ∧
      (revenue_forecast_linear ss ys sr yr sa sy months).get? 0 = some ⟨1, ss * sr + ys * yr⟩) := by
  have hget : ∀ i : ℕ, i < months.toNat →
      (revenue_forecast_compound ss ys sr yr pct months).get? i
          = some ⟨i + 1, ((compound_step pct)^[i] (ss, ys)).1 * sr
              + ((compound_step pct)^[i] (ss, ys)).2 * yr⟩ ∧
      (revenue_forecast_linear ss ys sr yr sa sy months).get? i
          = some ⟨i + 1, ((linear_step sa sy)^[i] (ss, ys)).1 * sr
              + ((linear_step sa sy)^[i] (ss, ys)).2 * yr⟩ := by
    intro i hi
    constructor
    · rw [revenue_forecast_compound,
        revenue_forecast_compound_go_get? sr yr (1 + pct / 100) months.toNat i 1 ss ys hi,
        compound_step_iterate]
      simp only [Option.some.injEq, RevenuePoint.mk.injEq]
      exact ⟨by omega, by ring⟩
    · rw [revenue_forecast_linear,
        revenue_forecast_linear_go_get? sr yr sa sy months.toNat i 1 ss ys hi,
        linear_step_iterate]
      simp only [Option.some.injEq, RevenuePoint.mk.injEq]
      exact ⟨by omega, by ring⟩
  refine ⟨?_, ?_, ?_, hget, ?_⟩
  · intro h
    have h0 : months.toNat = 0 := Int.toNat_of_nonpos h
    rw [revenue_forecast_compound, revenue_forecast_linear, h0]
    exact ⟨rfl, rfl⟩
  · rw [revenue_forecast_compound]; exact revenue_forecast_compound_go_length _ _ _ _ _ _ _
  · rw [revenue_forecast_linear]; exact revenue_forecast_linear_go_length _ _ _ _ _ _ _ _
  · intro h
    have h0 : 0 < months.toNat := by omega
    have := hget 0 h0
    simpa using this

/-- Witness for C1 at a concrete projection of two months. -/
theorem C1_witness :
    (revenue_forecast_compound 2 3 1 1 100 2).get? 1
        = some ⟨2, ((compound_step 100)^[1] (2, 3)).1 * 1 + ((compound_step 100)^[1] (2, 3)).2 * 1⟩ ∧
    (revenue_forecast_linear 2 3 1 1 4 5 2).get? 1
        = some ⟨2, ((linear_step 4 5)^[1] (2, 3)).1 * 1 + ((linear_step 4 5)^[1] (2, 3)).2 * 1⟩ :=
  (C1_projection_points 2 3 1 1 100 4 5 2).2.2.2.1 1 (by decide)

/-- C8: a compound projection with positive growth percentage, non-negative
initial stream counts and non-negative per-stream rates has a month-over-month
non-decreasing revenue series. -/
theorem C8_compound_monotone (ss ys sr yr pct : ℚ) (months : ℤ)
    (hpct : 0 < pct) (hss : 0 ≤ ss) (hys : 0 ≤ ys) (hsr : 0 ≤ sr) (hyr : 0 ≤ yr) :
    ∀ (i : ℕ) (p q : RevenuePoint),
      (revenue_forecast_compound ss ys sr yr pct months).get? i = some p →
      (revenue_forecast_compound ss ys sr yr pct months).get? (i + 1) = some q →
      p.revenue ≤ q.revenue := by
  intro i p q hp hq
  have hlen : (revenue_forecast_compound ss ys sr yr pct months).length = months.toNat := by
    rw [revenue_forecast_compound]; exact revenue_forecast_compound_go_length _ _ _ _ _ _ _
  have hi1 : i + 1 < months.toNat := by
    have := (List.get?_eq_some.1 hq).1
    omega
  have hi : i < months.toNat := by omega
  rw [revenue_forecast_compound,
    revenue_forecast_compound_go_get? sr yr (1 + pct / 100) months.toNat i 1 ss ys hi] at hp
  rw [revenue_forecast_compound,
    revenue_forecast_compound_go_get? sr yr (1 + pct / 100) months.toNat (i + 1) 1 ss ys hi1] at hq
  have hp2 := Option.some.inj hp
  have hq2 := Option.some.inj hq
  rw [← hp2, ← hq2]
  have hg : (1 : ℚ) ≤ 1 + pct / 100 := by
    have : (0 : ℚ) ≤ pct / 100 := div_nonneg hpct.le (by norm_num)
    linarith
  have hg0 : (0 : ℚ) ≤ 1 + pct / 100 := by linarith
  have hpow : (1 + pct / 100) ^ i ≤ (1 + pct / 100) ^ (i + 1) :=
    pow_le_pow_right₀ hg (by omega)
  have h1 : ss * (1 + pct / 100) ^ i * sr ≤ ss * (1 + pct / 100) ^ (i + 1) * sr :=
    mul_le_mul_of_nonneg_right (mul_le_mul_of_nonneg_left hpow hss) hsr
  have h2 : ys * (1 + pct / 100) ^ i * yr ≤ ys * (1 + pct / 100) ^ (i + 1) * yr :=
    mul_le_mul_of_nonneg_right (mul_le_mul_of_nonneg_left hpow hys) hyr
  simpa using add_le_add h1 h2

/-- Witness for C8 on a two-month projection with 10 percent growth. -/
theorem C8_witness :
    ((⟨1, 2⟩ : RevenuePoint)).revenue ≤ ((⟨2, 11/5⟩ : RevenuePoint)).revenue :=
  C8_compound_monotone 1 1 1 1 10 2 (by norm_num) (by norm_num) (by norm_num) (by norm_num)
    (by norm_num) 0 ⟨1, 2⟩ ⟨2, 11/5⟩
    (by norm_num [revenue_forecast_compound, revenue_forecast_compound_go])
    (by norm_num [revenue_forecast_compound, revenue_forecast_compound_go])

/-- C10: under non-negative initial stream counts, per-stream rates and growth
parameters, every revenue in the compound series and in the linear series is
non-negative. -/
theorem C10_revenue_nonneg (ss ys sr yr pct sa sy : ℚ) (months : ℤ)
    (hss : 0 ≤ ss) (hys : 0 ≤ ys) (hsr : 0 ≤ sr) (hyr : 0 ≤ yr)
    (hpct : 0 ≤ pct) (hsa : 0 ≤ sa) (hsy : 0 ≤ sy) :
    (∀ (i : ℕ) (p : RevenuePoint),
      (revenue_forecast_compound ss ys sr yr pct months).get? i = some p → 0 ≤ p.revenue) ∧
    (∀ (i : ℕ) (p : RevenuePoint),
      (revenue_forecast_linear ss ys sr yr sa sy months).get? i = some p → 0 ≤ p.revenue) := by
  constructor
  · intro i p hp
    have hlen : (revenue_forecast_compound ss ys sr yr pct months).length = months.toNat := by
      rw [revenue_forecast_compound]; exact revenue_forecast_compound_go_length _ _ _ _ _ _ _
    have hi : i < months.toNat := by
      have := (List.get?_eq_some.1 hp).1
      omega
    rw [revenue_forecast_compound,
      revenue_forecast_compound_go_get? sr yr (1 + pct / 100) months.toNat i 1 ss ys hi] at hp
    rw [← Option.some.inj hp]
    have hg0 : (0 : ℚ) ≤ 1 + pct / 100 := by
      have : (0 : ℚ) ≤ pct / 100 := div_nonneg hpct (by norm_num)
      linarith
    have hpow : (0 : ℚ) ≤ (1 + pct / 100) ^ i := pow_nonneg hg0 i
    exact add_nonneg (mul_nonneg (mul_nonneg hss hpow) hsr)
      (mul_nonneg (mul_nonneg hys hpow) hyr)
  · intro i p hp
    have hlen : (revenue_forecast_linear ss ys sr yr sa sy months).length = months.toNat := by
      rw [revenue_forecast_linear]; exact revenue_forecast_linear_go_length _ _ _ _ _ _ _ _
    have hi : i < months.toNat := by
      have := (List.get?_eq_some.1 hp).1
      omega
    rw [revenue_forecast_linear,
      revenue_forecast_linear_go_get? sr yr sa sy months.toNat i 1 ss ys hi] at hp
    rw [← Option.some.inj hp]
    have h1 : (0 : ℚ) ≤ ss + (i : ℚ) * sa :=
      add_nonneg hss (mul_nonneg (by positivity) hsa)
    have h2 : (0 : ℚ) ≤ ys + (i : ℚ) * sy :=
      add_nonneg hys (mul_nonneg (by positivity) hsy)
    exact add_nonneg (mul_nonneg h1 hsr) (mul_nonneg h2 hyr)

/-- Witness for C10 on a one-month projection. -/
theorem C10_witness : 0 ≤ ((⟨1, 2⟩ : RevenuePoint)).revenue :=
  (C10_revenue_nonneg 1 1 1 1 0 0 0 1 (by norm_num) (by norm_num) (by norm_num) (by norm_num)
      (by norm_num) (by norm_num) (by norm_num)).1 0 ⟨1, 2⟩
    (by norm_num [revenue_forecast_compound, revenue_forecast_compound_go])

lemma reach_month_go_eq_some (target : ℚ) :
    ∀ (l : List ℚ) (s k : ℕ), reach_month_go target s l = some k →
      s ≤ k ∧ (∃ r : ℚ, l.get? (k - s) = some r ∧ target ≤ r) ∧
        ∀ j : ℕ, j < k - s → ∀ r : ℚ, l.get? j = some r → r < target := by
  intro l
  induction l with
  | nil => intro s k h; exact absurd h (by simp [reach_month_go])
  | cons r rest ih =>
    intro s k h
    rw [reach_month_go] at h
    by_cases hr : target ≤ r
    · rw [if_pos hr] at h
      have hk : k = s := (Option.some.inj h).symm
      subst hk
      refine ⟨le_refl _, ⟨r, by simp, hr⟩, ?_⟩
      intro j hj
      omega
    · rw [if_neg hr] at h
      obtain ⟨hs, ⟨r2, hr2, hr2t⟩, hbelow⟩ := ih (s + 1) k h
      refine ⟨by omega, ⟨r2, ?_, hr2t⟩, ?_⟩
      · have : k - s = (k - (s + 1)) + 1 := by omega
        rw [this]
        simpa using hr2
      · intro j hj r3 hr3
        cases j with
        | zero =>
          simp only [List.get?_cons_zero, Option.some.injEq] at hr3
          rw [← hr3]
          exact lt_of_not_le hr
        | succ j =>
          simp only [List.get?_cons_succ] at hr3
          exact hbelow j (by omega) r3 hr3

lemma reach_month_go_eq_none (target : ℚ) :
    ∀ (l : List ℚ) (s : ℕ), (∀ (j : ℕ) (r : ℚ), l.get? j = some r → r < target) →
      reach_month_go target s l = none := by
  intro l
  induction l with
  | nil => intro s h; rfl
  | cons r rest ih =>
    intro s h
    rw [reach_month_go, if_neg (not_le.2 (h 0 r (by simp)))]
    exact ih (s + 1) fun j q hj => h (j + 1) q (by simpa using hj)

/-- C6: on a series whose points carry the months `1, 2, ...` in order (the
shape every projected series has), a `some k` answer of `reach_month` points
at a month-`k` point with revenue `≥ target` while every earlier month stays
strictly below the target, and if every revenue stays strictly below the
target the answer is `none`. -/
theorem C6_reach_month_first (df : List RevenuePoint) (target : ℚ)
    (hm : ∀ (i : ℕ) (p : RevenuePoint), df.get? i = some p → p.month = i + 1) :
    (∀ k : ℕ, reach_month df target = some k →
      1 ≤ k ∧ ∃ p : RevenuePoint, df.get? (k - 1) = some p ∧ p.month = k ∧
        target ≤ p.revenue ∧
        ∀ (j : ℕ) (q : RevenuePoint), df.get? j = some q → q.month < k → q.revenue < target) ∧
    ((∀ (i : ℕ) (p : RevenuePoint), df.get? i = some p → p.revenue < target) →
      reach_month df target = none) := by
  constructor
  · intro k h
    rw [reach_month] at h
    obtain ⟨hs, ⟨r, hr, hrt⟩, hbelow⟩ := reach_month_go_eq_some target _ 1 k h
    rw [List.get?_map] at hr
    obtain ⟨p, hp, hpr⟩ := Option.map_eq_some'.1 hr
    refine ⟨hs, p, hp, ?_, by rw [hpr]; exact hrt, ?_⟩
    · have := hm (k - 1) p hp
      omega
    · intro j q hq hqk
      have hj : q.month = j + 1 := hm j q hq
      have : j < k - 1 := by omega
      have := hbelow j this q.revenue (by rw [List.get?_map, hq]; rfl)
      exact this
  · intro h
    rw [reach_month]
    refine reach_month_go_eq_none target _ 1 ?_
    intro j r hj
    rw [List.get?_map] at hj
    obtain ⟨p, hp, hpr⟩ := Option.map_eq_some'.1 hj
    rw [← hpr]
    exact h j p hp

/-- Witness for C6 on the series `[(1, 5), (2, 10)]` with target `7`. -/
theorem C6_witness :
    1 ≤ 2 ∧ ∃ p : RevenuePoint, [(⟨1, 5⟩ : RevenuePoint), ⟨2, 10⟩].get? (2 - 1) = some p ∧
      p.month = 2 ∧ (7 : ℚ) ≤ p.revenue ∧
      ∀ (j : ℕ) (q : RevenuePoint), [(⟨1, 5⟩ : RevenuePoint), ⟨2, 10⟩].get? j = some q →
        q.month < 2 → q.revenue < 7 :=
  (C6_reach_month_first [⟨1, 5⟩, ⟨2, 10⟩] 7 (by
    intro i p h
    match i with
    | 0 => simp only [List.get?_cons_zero, Option.some.injEq] at h; rw [← h]
    | 1 => simp only [List.get?_cons_succ, List.get?_cons_zero, Option.some.injEq] at h; rw [← h]
    | (j + 2) => simp at h)).1 2 (by decide)

lemma weighted_inversion (sr yr target r1 r2 : ℚ) (hne : r1 * sr + r2 * yr ≠ 0) :
    target / (r1 * sr + r2 * yr) * r1 * sr + target / (r1 * sr + r2 * yr) * r2 * yr = target := by
  have key : target / (r1 * sr + r2 * yr) * r1 * sr + target / (r1 * sr + r2 * yr) * r2 * yr
      = target / (r1 * sr + r2 * yr) * (r1 * sr + r2 * yr) := by ring
  rw [key, div_mul_cancel₀ target hne]

/-- C4: whenever `reverse_required_streams` returns a result, the per-channel
required stream counts invert the revenue formula exactly:
`required_spotify_streams * spotify_rate + required_youtube_streams *
youtube_rate = target` (in both the proportional-split and the 50/50 branch). -/
theorem C4_streams_inversion (ss ys sr yr target : ℚ) (req : ReverseRequirement)
    (h : reverse_required_streams ss ys sr yr target = some req) :
    req.required_spotify_streams * sr + req.required_youtube_streams * yr = target := by
  simp only [reverse_required_streams] at h
  split_ifs at h with htot hw hw2
  · rw [← Option.some.inj h]
    have hne : ss / (ss + ys) * sr + ys / (ss + ys) * yr ≠ 0 := fun hc => hw (le_of_eq hc)
    exact weighted_inversion sr yr target _ _ hne
  · rw [← Option.some.inj h]
    have hne : (1 : ℚ) / 2 * sr + 1 / 2 * yr ≠ 0 := fun hc => hw2 (le_of_eq hc)
    exact weighted_inversion sr yr target _ _ hne

/-- Witness for C4 at streams `(100, 50)`, rates `(0.3, 0.2)`, target `1000`. -/
theorem C4_witness :
    ((⟨2/3, 1/3, 4/15, 3750, 2500, 1250⟩ : ReverseRequirement)).required_spotify_streams * (3/10)
      + ((⟨2/3, 1/3, 4/15, 3750, 2500, 1250⟩ : ReverseRequirement)).required_youtube_streams * (2/10)
      = 1000 :=
  C4_streams_inversion 100 50 (3/10) (2/10) 1000 ⟨2/3, 1/3, 4/15, 3750, 2500, 1250⟩
    (by norm_num [reverse_required_streams])

/-- Counterexample to C7 as stated: with a negative target the non-null result
of `reverse_required_streams` has a negative `required_total_streams`, so the
ReverseRequirement invariant does not hold for every target. -/
theorem C7_counterexample :
    reverse_required_streams 100 50 (3/10) (2/10) (-100)
      = some ⟨2/3, 1/3, 4/15, -375, -250, -125⟩ ∧
    ((⟨2/3, 1/3, 4/15, -375, -250, -125⟩ : ReverseRequirement)).required_total_streams < 0 := by
  constructor
  · norm_num [reverse_required_streams]
  · norm_num

/-- C7 (amended): for a non-negative stream state, rate model and target, any
non-null result of `reverse_required_streams` satisfies the ReverseRequirement
invariant: both ratios lie in `[0, 1]` and sum to `1`, the weighted rate is
non-negative, and all three required stream counts are non-negative. -/
theorem C7_requirement_invariants (ss ys sr yr target : ℚ)
    (hss : 0 ≤ ss) (hys : 0 ≤ ys) (hsr : 0 ≤ sr) (hyr : 0 ≤ yr) (ht : 0 ≤ target)
    (req : ReverseRequirement)
    (h : reverse_required_streams ss ys sr yr target = some req) :
    0 ≤ req.spotify_ratio ∧ req.spotify_ratio ≤ 1 ∧
    0 ≤ req.youtube_ratio ∧ req.youtube_ratio ≤ 1 ∧
    req.spotify_ratio + req.youtube_ratio = 1 ∧
    0 ≤ req.weighted_rate ∧ 0 ≤ req.required_total_streams ∧
    0 ≤ req.required_spotify_streams ∧ 0 ≤ req.required_youtube_streams := by
  simp only [reverse_required_streams] at h
  split_ifs at h with htot hw hw2
  · rw [← Option.some.inj h]
    have hr1 : (0 : ℚ) ≤ ss / (ss + ys) := div_nonneg hss htot.le
    have hr2 : (0 : ℚ) ≤ ys / (ss + ys) := div_nonneg hys htot.le
    have hr1le : ss / (ss + ys) ≤ 1 := by rw [div_le_one htot]; linarith
    have hr2le : ys / (ss + ys) ≤ 1 := by rw [div_le_one htot]; linarith
    have hsum : ss / (ss + ys) + ys / (ss + ys) = 1 := by
      rw [div_add_div_same, div_self (ne_of_gt htot)]
    have hwpos : 0 < ss / (ss + ys) * sr + ys / (ss + ys) * yr := not_le.mp hw
    have htnn : 0 ≤ target / (ss / (ss + ys) * sr + ys / (ss + ys) * yr) :=
      div_nonneg ht hwpos.le
    exact ⟨hr1, hr1le, hr2, hr2le, hsum, hwpos.le, htnn,
      mul_nonneg htnn hr1, mul_nonneg htnn hr2⟩
  · rw [← Option.some.inj h]
    have hwpos : 0 < (1 : ℚ) / 2 * sr + 1 / 2 * yr := not_le.mp hw2
    have htnn : 0 ≤ target / ((1 : ℚ) / 2 * sr + 1 / 2 * yr) := div_nonneg ht hwpos.le
    refine ⟨by norm_num, by norm_num, by norm_num, by norm_num, by norm_num,
      hwpos.le, htnn, mul_nonneg htnn (by norm_num), mul_nonneg htnn (by norm_num)⟩

/-- Witness for C7 (amended) at streams `(100, 50)`, rates `(0.3, 0.2)` and
target `1000`. -/
theorem C7_witness :
    (0 : ℚ) ≤ 2/3 ∧ (2/3 : ℚ) ≤ 1 ∧ (0 : ℚ) ≤ 1/3 ∧ (1/3 : ℚ) ≤ 1 ∧
    (2/3 : ℚ) + 1/3 = 1 ∧ (0 : ℚ) ≤ 4/15 ∧ (0 : ℚ) ≤ 3750 ∧
    (0 : ℚ) ≤ 2500 ∧ (0 : ℚ) ≤ 1250 :=
  C7_requirement_invariants 100 50 (3/10) (2/10) 1000 (by norm_num) (by norm_num)
    (by norm_num) (by norm_num) (by norm_num) ⟨2/3, 1/3, 4/15, 3750, 2500, 1250⟩
    (by norm_num [reverse_required_streams])

/-- Counterexample to C3 as stated: the source truncates with `int(...)` where
the claim says `round(...)`.  At popularity `0`, followers `100007` the product
`100007 * 0.08 = 8000.56` truncates to `8000` but rounds to `8001`. -/
theorem C3_counterexample :
    (estimate_streams_from_artist 0 100007).1
      ≠ max 5000 (round ((100007 : ℚ) * (8/100 + ((0 : ℚ)/100) * (10/100)))) := by
  have h1 : (estimate_streams_from_artist 0 100007).1 = 8000 := by
    norm_num [estimate_streams_from_artist, pyTrunc]
  have h2 : round ((100007 : ℚ) * (8/100 + ((0 : ℚ)/100) * (10/100))) = 8001 := by
    rw [round_eq]
    norm_num
  rw [h1, h2]
  norm_num

/-- C3 (amended): `estimate_streams_from_artist` clamps popularity to `[0,100]`
and followers to `≥ 0`, then returns
`spotify_streams = max(5000, trunc(followers * (0.08 + popularity/100 * 0.10)))`
and `youtube_streams = max(0, trunc(spotify_streams * (0.40 + popularity/100 * 0.40)))`
where `trunc` is truncation toward zero (floor, as both products are
non-negative); in particular `estimate_streams_from_artist 60 200000 =
(28000, 17920)`. -/
theorem C3_estimate_streams (popularity followers : ℤ) :
    (estimate_streams_from_artist popularity followers).1
        = max 5000 ⌊((max 0 followers : ℤ) : ℚ)
            * (8/100 + (((max 0 (min 100 popularity) : ℤ) : ℚ) / 100) * (10/100))⌋ ∧
    (estimate_streams_from_artist popularity followers).2
        = max 0 ⌊(((estimate_streams_from_artist popularity followers).1 : ℤ) : ℚ)
            * (40/100 + (((max 0 (min 100 popularity) : ℤ) : ℚ) / 100) * (40/100))⌋ ∧
    estimate_streams_from_artist 60 200000 = (28000, 17920) := by
  have hp : (0 : ℚ) ≤ ((max 0 (min 100 popularity) : ℤ) : ℚ) := by
    exact_mod_cast le_max_left 0 (min 100 popularity)
  have hf : (0 : ℚ) ≤ ((max 0 followers : ℤ) : ℚ) := by
    exact_mod_cast le_max_left 0 followers
  have hbase : (0 : ℚ) ≤ 8/100 + (((max 0 (min 100 popularity) : ℤ) : ℚ) / 100) * (10/100) := by
    have := mul_nonneg (div_nonneg hp (by norm_num : (0:ℚ) ≤ 100))
      (show (0:ℚ) ≤ 10/100 by norm_num)
    linarith
  have hyt : (0 : ℚ) ≤ 40/100 + (((max 0 (min 100 popularity) : ℤ) : ℚ) / 100) * (40/100) := by
    have := mul_nonneg (div_nonneg hp (by norm_num : (0:ℚ) ≤ 100))
      (show (0:ℚ) ≤ 40/100 by norm_num)
    linarith
  have harg1 : (0 : ℚ) ≤ ((max 0 followers : ℤ) : ℚ)
      * (8/100 + (((max 0 (min 100 popularity) : ℤ) : ℚ) / 100) * (10/100)) :=
    mul_nonneg hf hbase
  have hfst : (estimate_streams_from_artist popularity followers).1
      = max 5000 ⌊((max 0 followers : ℤ) : ℚ)
          * (8/100 + (((max 0 (min 100 popularity) : ℤ) : ℚ) / 100) * (10/100))⌋ := by
    simp only [estimate_streams_from_artist, pyTrunc]
    rw [if_neg (not_lt.2 harg1)]
  have hspnn : (0 : ℚ) ≤ ((max 5000 ⌊((max 0 followers : ℤ) : ℚ)
      * (8/100 + (((max 0 (min 100 popularity) : ℤ) : ℚ) / 100) * (10/100))⌋ : ℤ) : ℚ) := by
    have h5 : (0 : ℤ) ≤ max 5000 ⌊((max 0 followers : ℤ) : ℚ)
        * (8/100 + (((max 0 (min 100 popularity) : ℤ) : ℚ) / 100) * (10/100))⌋ :=
      le_trans (by norm_num) (le_max_left _ _)
    exact_mod_cast h5
  have harg2 : (0 : ℚ) ≤ ((max 5000 ⌊((max 0 followers : ℤ) : ℚ)
      * (8/100 + (((max 0 (min 100 popularity) : ℤ) : ℚ) / 100) * (10/100))⌋ : ℤ) : ℚ)
      * (40/100 + (((max 0 (min 100 popularity) : ℤ) : ℚ) / 100) * (40/100)) :=
    mul_nonneg hspnn hyt
  refine ⟨hfst, ?_, by norm_num [estimate_streams_from_artist, pyTrunc]⟩
  rw [hfst]
  simp only [estimate_streams_from_artist, pyTrunc]
  rw [if_neg (not_lt.2 harg1), if_neg (not_lt.2 harg2)]

/-- C2: `required_growth_rate_to_reach` evaluates its guards in source order,
first match wins: `months ≤ 0` fails with the invalid-duration message;
then `target ≤ 0` fails with the zero-target message; then `r0 ≤ 0` fails with
the zero-revenue message; then `r0 ≥ target` succeeds with rate `0`; then
`months = 1` fails with the single-period message; otherwise it succeeds with
`max 0 (((target/r0)^(1/(months-1)) - 1) * 100)`.  In particular
`(0, 1000, 12)` fails with the zero-baseline message and `(1000, 1000, 12)`
succeeds with rate `0`. -/
theorem C2_required_growth_rate_cases (r0 target : ℝ) (months : ℤ) :
    (months ≤ 0 →
      required_growth_rate_to_reach r0 target months = (none, some msgInvalidDuration)) ∧
    (0 < months → target ≤ 0 →
      required_growth_rate_to_reach r0 target months = (none, some msgTargetZero)) ∧
    (0 < months → 0 < target → r0 ≤ 0 →
      required_growth_rate_to_reach r0 target months = (none, some msgRevenueZero)) ∧
    (0 < months → 0 < target → target ≤ r0 →
      required_growth_rate_to_reach r0 target months = (some 0, none)) ∧
    (0 < target → 0 < r0 → r0 < target → months = 1 →
      required_growth_rate_to_reach r0 target months = (none, some msgOneMonth)) ∧
    (0 < target → 0 < r0 → r0 < target → 1 < months →
      required_growth_rate_to_reach r0 target months
        = (some (max 0 (((target / r0) ^ ((1 : ℝ) / ((months : ℝ) - 1)) - 1) * 100)), none)) ∧
    required_growth_rate_to_reach 0 1000 12 = (none, some msgRevenueZero) ∧
    required_growth_rate_to_reach 1000 1000 12 = (some 0, none) := by
  refine ⟨?_, ?_, ?_, ?_, ?_, ?_, ?_, ?_⟩
  · intro h1
    unfold required_growth_rate_to_reach
    rw [if_pos h1]
  · intro h1 h2
    unfold required_growth_rate_to_reach
    rw [if_neg (by omega), if_pos h2]
  · intro h1 h2 h3
    unfold required_growth_rate_to_reach
    rw [if_neg (by omega), if_neg (not_le.2 h2), if_pos h3]
  · intro h1 h2 h3
    unfold required_growth_rate_to_reach
    rw [if_neg (by omega), if_neg (not_le.2 h2),
      if_neg (not_le.2 (lt_of_lt_of_le h2 h3)), if_pos h3]
  · intro h2 h3 h4 h5
    unfold required_growth_rate_to_reach
    rw [if_neg (by omega), if_neg (not_le.2 h2), if_neg (not_le.2 h3),
      if_neg (not_le.2 h4), if_pos h5]
  · intro h2 h3 h4 h5
    unfold required_growth_rate_to_reach
    rw [if_neg (by omega), if_neg (not_le.2 h2), if_neg (not_le.2 h3),
      if_neg (not_le.2 h4), if_neg (by omega)]
  · unfold required_growth_rate_to_reach
    norm_num
  · unfold required_growth_rate_to_reach
    norm_num

/-- Witness for C2 at `(1, 2, 2)`, landing in the closed-form success branch. -/
theorem C2_witness :
    required_growth_rate_to_reach 1 2 2
      = (some (max 0 ((((2 : ℝ) / 1) ^ ((1 : ℝ) / (((2 : ℤ) : ℝ) - 1)) - 1) * 100)), none) :=
  (C2_required_growth_rate_cases 1 2 2).2.2.2.2.2.1 (by norm_num) (by norm_num) (by norm_num)
    (by norm_num)

/-- C9: for every input, `required_growth_rate_to_reach` returns either a rate
and no message or a message and no rate — never both, never neither — and any
returned rate is non-negative. -/
theorem C9_result_shape (r0 target : ℝ) (months : ℤ) :
    (∃ g : ℝ, required_growth_rate_to_reach r0 target months = (some g, none) ∧ 0 ≤ g) ∨
    (∃ e : String, required_growth_rate_to_reach r0 target months = (none, some e)) := by
  unfold required_growth_rate_to_reach
  split_ifs with h1 h2 h3 h4 h5
  · exact Or.inr ⟨msgInvalidDuration, rfl⟩
  · exact Or.inr ⟨msgTargetZero, rfl⟩
  · exact Or.inr ⟨msgRevenueZero, rfl⟩
  · exact Or.inl ⟨0, rfl, le_refl 0⟩
  · exact Or.inr ⟨msgOneMonth, rfl⟩
  · exact Or.inl ⟨_, rfl, le_max_left 0 _⟩

/-- C5: on the success branch with `months > 1` and `0 < r0 < target`,
compounding `r0` at the returned rate for `months - 1` periods reproduces the
target exactly. -/
theorem C5_growth_inversion (r0 target : ℝ) (months : ℤ)
    (hm : 1 < months) (hr : 0 < r0) (ht : r0 < target) (g : ℝ)
    (hg : (required_growth_rate_to_reach r0 target months).1 = some g) :
    r0 * (1 + g / 100) ^ (months - 1).toNat = target := by
  have h0 : (0 : ℝ) < target := lt_trans hr ht
  have hmr : (1 : ℝ) < (months : ℝ) := by exact_mod_cast hm
  have hden : (0 : ℝ) < (months : ℝ) - 1 := by linarith
  have hbase : 1 < target / r0 := (one_lt_div hr).2 ht
  have hexp : 0 < (1 : ℝ) / ((months : ℝ) - 1) := by positivity
  have hpow1 : 1 < (target / r0) ^ ((1 : ℝ) / ((months : ℝ) - 1)) :=
    (Real.one_lt_rpow_iff_of_pos (by positivity)).2 (Or.inl ⟨hbase, hexp⟩)
  have hfun : required_growth_rate_to_reach r0 target months
      = (some (max 0 (((target / r0) ^ ((1 : ℝ) / ((months : ℝ) - 1)) - 1) * 100)), none) := by
    unfold required_growth_rate_to_reach
    rw [if_neg (by omega), if_neg (not_le.2 h0), if_neg (not_le.2 hr),
      if_neg (not_le.2 ht), if_neg (by omega)]
  rw [hfun] at hg
  simp only [Option.some.injEq] at hg
  have hmax : max 0 (((target / r0) ^ ((1 : ℝ) / ((months : ℝ) - 1)) - 1) * 100)
      = ((target / r0) ^ ((1 : ℝ) / ((months : ℝ) - 1)) - 1) * 100 :=
    max_eq_right (by nlinarith)
  have hgv : g = ((target / r0) ^ ((1 : ℝ) / ((months : ℝ) - 1)) - 1) * 100 := by
    rw [← hg, hmax]
  have hone : 1 + g / 100 = (target / r0) ^ ((1 : ℝ) / ((months : ℝ) - 1)) := by
    rw [hgv]; ring
  rw [hone]
  have hcast : (((months - 1).toNat : ℕ) : ℝ) = (months : ℝ) - 1 := by
    have h1 : ((months - 1).toNat : ℤ) = months - 1 := Int.toNat_of_nonneg (by omega)
    have h2 : (((months - 1).toNat : ℤ) : ℝ) = ((months - 1 : ℤ) : ℝ) := by
      exact_mod_cast h1
    push_cast at h2
    exact h2
  rw [← Real.rpow_natCast ((target / r0) ^ ((1 : ℝ) / ((months : ℝ) - 1))) ((months - 1).toNat),
    ← Real.rpow_mul (by positivity : (0 : ℝ) ≤ target / r0), hcast,
    one_div_mul_cancel (ne_of_gt hden), Real.rpow_one]
  have hr0 : r0 ≠ 0 := ne_of_gt hr
  field_simp

/-- Witness for C5 at `(1, 2, 2)` with the returned rate `100`. -/
theorem C5_witness : (1 : ℝ) * (1 + 100 / 100) ^ ((2 : ℤ) - 1).toNat = 2 :=
  C5_growth_inversion 1 2 2 (by norm_num) (by norm_num) (by norm_num) 100 (by
    unfold required_growth_rate_to_reach
    norm_num [Real.rpow_one])
